import Mathlib

/-!
Shallow embedding of the ImmersiVerse world-generation core
(`app/schemas.py` and `app/services/world_generator.py`).

Conventions of the embedding:
* Python `str` is Lean `String`; lengths are counted in characters.
* `uuid4()`-generated identifiers are modelled as naturals drawn from an
  explicit fresh-supply counter passed to the generating function; two draws
  from the supply yield distinct naturals, which is the property the code
  relies on ("freshly generated unique instance identifier").
* `datetime.utcnow()` is modelled as an explicit `now : Nat` parameter.
* Python dicts with string keys are association lists; heterogeneous
  property values (`str` / `bool`) are the sum type `PropValue`.
* Pydantic field constraints and `field_validator`s run at model
  construction, so constructing a model is a fallible operation returning
  `Except String`.
* Float coordinates in the source are always small integer literals, so
  `Vector3` / `Quaternion` components are embedded as `Int`.
-/

namespace ImmersiVerse

/-- Model of `WorldType` enum of `app/schemas.py` (values fantasy, sci_fi, realistic,
surreal, historical, urban, nature, space). -/
inductive WorldType where
  | fantasy
  | sci_fi
  | realistic
  | surreal
  | historical
  | urban
  | nature
  | space
deriving DecidableEq, Repr

/-- Model of `PrefabType` enum of `app/schemas.py`. -/
inductive PrefabType where
  | building
  | vehicle
  | character
  | prop
  | environment
  | lighting
  | effect
  | ui
deriving DecidableEq, Repr

/-- Model of `Vector3` of `app/schemas.py`; components are integer literals throughout
the generator, embedded as `Int`. -/
structure Vector3 where
  x : Int
  y : Int
  z : Int
deriving DecidableEq, Repr

/-- Model of `Quaternion` of `app/schemas.py`. -/
structure Quaternion where
  x : Int
  y : Int
  z : Int
  w : Int
deriving DecidableEq, Repr

/-- A heterogeneous value of a prefab `properties` dict (`str` or `bool`). -/
inductive PropValue where
  | s (v : String)
  | b (v : Bool)
deriving DecidableEq, Repr

/-- Model of `PrefabInstance` of `app/schemas.py`.  The `id` field is the
`uuid4()`-generated unique instance identifier, modelled as a natural. -/
structure PrefabInstance where
  id : Nat
  prefab_id : String
  prefab_type : PrefabType
  position : Vector3
  rotation : Quaternion
  scale : Vector3 := ⟨1, 1, 1⟩
  properties : List (String × PropValue)
deriving DecidableEq, Repr

/-- Model of `WorldBlueprint` of `app/schemas.py` (record part; the pydantic field
constraints are `WorldBlueprint.validate` below). -/
structure WorldBlueprint where
  id : Nat
  prompt : String
  world_type : WorldType
  title : String
  description : String
  environment_settings : List (String × String)
  prefab_instances : List PrefabInstance
  spawn_points : List Vector3
  created_at : Nat
  updated_at : Nat
  processing_time_ms : Option Nat
deriving DecidableEq, Repr

/-- Model of `validate_prefab_instances` of `WorldBlueprint` (schemas.py:84-91):
collects the instance ids and raises `ValueError` when the list of ids is
shorter after deduplication (`len(instance_ids) != len(set(instance_ids))`);
otherwise returns the instance list unchanged. -/
def validate_prefab_instances (v : List PrefabInstance) :
    Except String (List PrefabInstance) :=
  let instance_ids := v.map (·.id)
  if instance_ids.length ≠ instance_ids.dedup.length then
    .error "Prefab instances must have unique IDs"
  else
    .ok v

/-- The description length constraint of `WorldBlueprint.description`
(`min_length=1, max_length=2000`). -/
def description_length_ok (s : String) : Bool :=
  1 ≤ s.length && s.length ≤ 2000

/-- Pydantic validation performed when a `WorldBlueprint` is constructed:
field length constraints on prompt (1..1000), title (1..200),
description (1..2000), and the `validate_prefab_instances` field validator. -/
def WorldBlueprint.validate (b : WorldBlueprint) : Except String WorldBlueprint :=
  if 1 ≤ b.prompt.length && b.prompt.length ≤ 1000 then
    if 1 ≤ b.title.length && b.title.length ≤ 200 then
      if description_length_ok b.description then
        match validate_prefab_instances b.prefab_instances with
        | .error e => .error e
        | .ok _ => .ok b
      else .error "description: length must be in [1, 2000]"
    else .error "title: length must be in [1, 200]"
  else .error "prompt: length must be in [1, 1000]"

/-- Model of `PromptRequest` of `app/schemas.py` (record part). -/
structure PromptRequest where
  prompt : String
  world_type : Option WorldType
  user_id : String
deriving DecidableEq, Repr

/-- Parsing of a raw `world_type` string into the `WorldType` enum, as
pydantic does from the enum's string values; unknown values fail. -/
def parse_world_type (s : String) : Option WorldType :=
  if s = "fantasy" then some .fantasy
  else if s = "sci_fi" then some .sci_fi
  else if s = "realistic" then some .realistic
  else if s = "surreal" then some .surreal
  else if s = "historical" then some .historical
  else if s = "urban" then some .urban
  else if s = "nature" then some .nature
  else if s = "space" then some .space
  else none

/-- Pydantic validation performed when a `PromptRequest` is constructed
(schemas.py:124-128): `prompt` must have length in [1, 1000] (no trimming);
`world_type`, when supplied, must parse as a `WorldType` enum value. -/
def validate_prompt_request (prompt : String) (world_type : Option String)
    (user_id : String) : Except String PromptRequest :=
  if prompt.length < 1 then
    .error "prompt: String should have at least 1 character"
  else if 1000 < prompt.length then
    .error "prompt: String should have at most 1000 characters"
  else
    match world_type with
    | none => .ok ⟨prompt, none, user_id⟩
    | some s =>
      match parse_world_type s with
      | some wt => .ok ⟨prompt, some wt, user_id⟩
      | none => .error "world_type: Input should be a valid WorldType"

/-! ### The classifier (`_infer_world_type`) -/

/-- Python `prompt.lower()`: character-wise lower-casing (the keyword
alphabet of the classifier is ASCII, where `Char.toLower` agrees with
Python). -/
def py_lower (s : String) : String :=
  String.mk (s.data.map Char.toLower)

/-- Python's `needle in hay` substring test on lists of characters. -/
def substr_match (needle : List Char) : List Char → Bool
  | [] => needle.isEmpty
  | c :: t => needle.isPrefixOf (c :: t) || substr_match needle t

/-- Model of `word in prompt_lower` for strings. -/
def keyword_in (word s : String) : Bool :=
  substr_match word.data s.data

/-- Model of `_infer_world_type` (world_generator.py:48-64): lower-case the prompt and
test the keyword groups in order, returning the first group's category; the
default is `realistic`. -/
def infer_world_type (prompt : String) : WorldType :=
  let prompt_lower := py_lower prompt
  if ["fantasy", "magic", "dragon", "wizard", "castle"].any
      (fun word => keyword_in word prompt_lower) then .fantasy
  else if ["space", "alien", "robot", "future", "sci-fi"].any
      (fun word => keyword_in word prompt_lower) then .sci_fi
  else if ["city", "urban", "street", "building"].any
      (fun word => keyword_in word prompt_lower) then .urban
  else if ["forest", "mountain", "nature", "wilderness"].any
      (fun word => keyword_in word prompt_lower) then .nature
  else if ["medieval", "ancient", "historical", "vintage"].any
      (fun word => keyword_in word prompt_lower) then .historical
  else .realistic

/-- The spec's wording of the classifier: an ordered list of
(category, keyword-set) rules, evaluated first-match-wins over the
lower-cased prompt, with default `realistic`.  Written from the spec's
words, for comparison with `infer_world_type`. -/
def classify_rules : List (WorldType × List String) :=
  [ (.fantasy, ["fantasy", "magic", "dragon", "wizard", "castle"]),
    (.sci_fi, ["space", "alien", "robot", "future", "sci-fi"]),
    (.urban, ["city", "urban", "street", "building"]),
    (.nature, ["forest", "mountain", "nature", "wilderness"]),
    (.historical, ["medieval", "ancient", "historical", "vintage"]) ]

/-- First-match-wins evaluation of ordered keyword rules (spec wording). -/
def classify_first_match : List (WorldType × List String) → String → WorldType
  | [], _ => .realistic
  | (cat, kws) :: rest, pl =>
    if kws.any (fun word => keyword_in word pl) then cat
    else classify_first_match rest pl

/-- Model of `classify` as the spec words it. -/
def classify_spec (prompt : String) : WorldType :=
  classify_first_match classify_rules (py_lower prompt)

/-- Category resolution of the façade (`request.world_type or
self._infer_world_type(request.prompt)`); every `WorldType` enum value is a
non-empty string, hence truthy, so a supplied category always wins. -/
def resolve_world_type (explicit : Option WorldType) (prompt : String) :
    WorldType :=
  match explicit with
  | some wt => wt
  | none => infer_world_type prompt

/-! ### The blueprint synthesizer -/

/-- Python `str.split()` (no argument): split on runs of whitespace,
discarding empty pieces. -/
def py_split_aux : List Char → List Char → List String
  | [], cur => if cur.isEmpty then [] else [String.mk cur.reverse]
  | c :: cs, cur =>
    if c.isWhitespace then
      if cur.isEmpty then py_split_aux cs []
      else String.mk cur.reverse :: py_split_aux cs []
    else py_split_aux cs (c :: cur)

/-- Python `prompt.split()`. -/
def py_split (s : String) : List String :=
  py_split_aux s.data []

/-- Python `str.title()`: the first letter of each maximal run of alphabetic
characters is upper-cased, subsequent letters of the run lower-cased; other
characters pass through and end the run. -/
def py_title_aux : List Char → Bool → List Char
  | [], _ => []
  | c :: cs, prevAlpha =>
    if c.isAlpha then
      (if prevAlpha then c.toLower else c.toUpper) :: py_title_aux cs true
    else
      c :: py_title_aux cs false

/-- Python `s.title()`. -/
def py_title (s : String) : String :=
  String.mk (py_title_aux s.data false)

/-- Model of `_generate_title` (world_generator.py:91-96): first five
whitespace-separated words, joined with spaces, title-cased, suffixed with
`" World"`. -/
def generate_title (prompt : String) (_world_type : WorldType) : String :=
  let words := (py_split prompt).take 5
  let title := py_title (String.intercalate " " words)
  title ++ " World"

/-- The `base_descriptions` dict of `_generate_description`
(world_generator.py:101-110); all eight enum values have an entry. -/
def base_descriptions : List (WorldType × String) :=
  [ (.fantasy, "A magical realm filled with wonder and enchantment."),
    (.sci_fi, "A futuristic world with advanced technology and alien landscapes."),
    (.realistic, "A realistic environment based on real-world locations."),
    (.surreal, "A dreamlike world that defies conventional reality."),
    (.historical, "A historical setting that captures the essence of the past."),
    (.urban, "A bustling urban environment with modern architecture."),
    (.nature, "A natural environment filled with organic beauty."),
    (.space, "An otherworldly space environment with cosmic wonders.") ]

/-- Model of `_generate_description` (world_generator.py:98-112):
`f"Generated from: '{prompt}'. {base_descriptions.get(world_type, 'A unique world to explore.')}"`. -/
def generate_description (prompt : String) (world_type : WorldType) : String :=
  "Generated from: '" ++ prompt ++ "'. " ++
    ((base_descriptions.lookup world_type).getD "A unique world to explore.")

/-- The fantasy entry of `settings_templates` (world_generator.py:117-122). -/
def fantasy_settings : List (String × String) :=
  [("lighting", "mystical"), ("weather", "ethereal"),
   ("ambient_sound", "magical_forest"), ("skybox", "fantasy_sky")]

/-- The sci-fi entry of `settings_templates` (world_generator.py:123-128). -/
def sci_fi_settings : List (String × String) :=
  [("lighting", "neon"), ("weather", "none"),
   ("ambient_sound", "space_station"), ("skybox", "space_stars")]

/-- The realistic entry of `settings_templates` (world_generator.py:129-134). -/
def realistic_settings : List (String × String) :=
  [("lighting", "natural"), ("weather", "clear"),
   ("ambient_sound", "city_traffic"), ("skybox", "realistic_sky")]

/-- The urban entry of `settings_templates` (world_generator.py:135-140). -/
def urban_settings : List (String × String) :=
  [("lighting", "street_lights"), ("weather", "overcast"),
   ("ambient_sound", "urban_bustle"), ("skybox", "city_skyline")]

/-- The nature entry of `settings_templates` (world_generator.py:141-146). -/
def nature_settings : List (String × String) :=
  [("lighting", "sunlight"), ("weather", "sunny"),
   ("ambient_sound", "birds_chirping"), ("skybox", "forest_canopy")]

/-- The `settings_templates` dict of `_generate_environment_settings`:
entries for fantasy, sci-fi, realistic, urban and nature only. -/
def settings_templates : List (WorldType × List (String × String)) :=
  [ (.fantasy, fantasy_settings), (.sci_fi, sci_fi_settings),
    (.realistic, realistic_settings), (.urban, urban_settings),
    (.nature, nature_settings) ]

/-- Model of `_generate_environment_settings` (world_generator.py:114-149), value
level: `settings_templates.get(world_type, settings_templates[REALISTIC])`. -/
def generate_environment_settings (world_type : WorldType) :
    List (String × String) :=
  match settings_templates.lookup world_type with
  | some m => m
  | none => (settings_templates.lookup .realistic).getD []

/-- Model of `_generate_prefab_instances` (world_generator.py:151-202).  `supply` is
the fresh-identifier counter: the k-th `uuid4()` call of this invocation is
modelled as the identifier `supply + k`. -/
def generate_prefab_instances (supply : Nat) (_prompt : String)
    (world_type : WorldType) : List PrefabInstance :=
  if world_type = .fantasy then
    [ { id := supply, prefab_id := "fantasy_castle_01",
        prefab_type := .building, position := ⟨0, 0, 0⟩,
        rotation := ⟨0, 0, 0, 1⟩,
        properties := [("theme", .s "medieval"), ("size", .s "large")] },
      { id := supply + 1, prefab_id := "magic_tree_01",
        prefab_type := .environment, position := ⟨10, 0, 5⟩,
        rotation := ⟨0, 0, 0, 1⟩,
        properties := [("glow", .b true), ("animated", .b true)] } ]
  else if world_type = .sci_fi then
    [ { id := supply, prefab_id := "space_station_01",
        prefab_type := .building, position := ⟨0, 0, 0⟩,
        rotation := ⟨0, 0, 0, 1⟩,
        properties := [("theme", .s "futuristic"), ("size", .s "massive")] },
      { id := supply + 1, prefab_id := "hologram_display_01",
        prefab_type := .ui, position := ⟨5, 2, 0⟩,
        rotation := ⟨0, 0, 0, 1⟩,
        properties := [("interactive", .b true), ("glow", .b true)] } ]
  else
    [ { id := supply, prefab_id := "modern_building_01",
        prefab_type := .building, position := ⟨0, 0, 0⟩,
        rotation := ⟨0, 0, 0, 1⟩,
        properties := [("theme", .s "modern"), ("size", .s "medium")] } ]

/-- Model of `_generate_spawn_points` (world_generator.py:204-220). -/
def generate_spawn_points (world_type : WorldType) : List Vector3 :=
  if world_type = .fantasy then
    [⟨0, 1, 0⟩, ⟨10, 1, 5⟩]
  else if world_type = .sci_fi then
    [⟨0, 1, 0⟩, ⟨5, 1, 0⟩]
  else
    [⟨0, 1, 0⟩, ⟨5, 1, 5⟩]

/-- The `WorldBlueprint(...)` record built by `_create_world_blueprint`
(world_generator.py:66-89), before pydantic validation.  `supply` feeds the
blueprint id (`supply`) and the instance ids (`supply + 1`, ...); `now` is
`datetime.utcnow()`. -/
def raw_blueprint (supply now : Nat) (prompt : String)
    (world_type : WorldType) : WorldBlueprint :=
  { id := supply
    prompt := prompt
    world_type := world_type
    title := generate_title prompt world_type
    description := generate_description prompt world_type
    environment_settings := generate_environment_settings world_type
    prefab_instances := generate_prefab_instances (supply + 1) prompt world_type
    spawn_points := generate_spawn_points world_type
    created_at := now
    updated_at := now
    processing_time_ms := none }

/-- Model of `_create_world_blueprint` (world_generator.py:66-89): build the record
and run pydantic validation (which raises on constraint violation). -/
def create_world_blueprint (supply now : Nat) (prompt : String)
    (world_type : WorldType) : Except String WorldBlueprint :=
  (raw_blueprint supply now prompt world_type).validate

/-- The `WorldBlueprintModel` row stored by `generate_world_from_prompt`
(world_generator.py:29-38). -/
structure WorldBlueprintModel where
  id : Nat
  prompt : String
  world_type : String
  title : String
  description : String
  environment_settings : List (String × String)
  prefab_instances : List PrefabInstance
  spawn_points : List Vector3
deriving DecidableEq, Repr

/-- The enum string value of a `WorldType` (`world_type.value`). -/
def WorldType.value : WorldType → String
  | .fantasy => "fantasy"
  | .sci_fi => "sci_fi"
  | .realistic => "realistic"
  | .surreal => "surreal"
  | .historical => "historical"
  | .urban => "urban"
  | .nature => "nature"
  | .space => "space"

/-- The `WorldBlueprintModel(...)` row built from a blueprint
(world_generator.py:29-38). -/
def to_world_model (b : WorldBlueprint) : WorldBlueprintModel :=
  { id := b.id
    prompt := b.prompt
    world_type := b.world_type.value
    title := b.title
    description := b.description
    environment_settings := b.environment_settings
    prefab_instances := b.prefab_instances
    spawn_points := b.spawn_points }

/-- Model of `generate_world_from_prompt` (world_generator.py:18-46), with the
database session made explicit as the list of stored rows: resolve the
category, synthesize the blueprint, **add and commit a row to the store**,
stamp the elapsed milliseconds, and return the blueprint together with the
updated store.  `start`/`finish` are the two wall-clock reads; the stamped
value is `finish - start` milliseconds. -/
def generate_world_from_prompt (db : List WorldBlueprintModel)
    (supply now start finish : Nat) (request : PromptRequest) :
    Except String (WorldBlueprint × List WorldBlueprintModel) :=
  let world_type := resolve_world_type request.world_type request.prompt
  match create_world_blueprint supply now request.prompt world_type with
  | .error e => .error e
  | .ok b =>
    let db' := db ++ [to_world_model b]
    .ok ({ b with processing_time_ms := some (finish - start) }, db')

/-! ### Heap model of `_generate_environment_settings`

The claims about aliasing need object identity, so the function is also
embedded against an explicit heap of dict objects: each call evaluates the
`settings_templates` dict display, which allocates the five inner dict
literals afresh, and returns a *reference* to the selected one (no copy is
taken).  Mutation writes through a reference. -/

/-- A heap of dict objects; an address is an index into `cells`. -/
structure Heap where
  cells : List (List (String × String))
deriving Repr

/-- Allocate a fresh dict object, returning its address. -/
def Heap.alloc (h : Heap) (m : List (String × String)) : Heap × Nat :=
  (⟨h.cells ++ [m]⟩, h.cells.length)

/-- Read the dict object at an address. -/
def Heap.read (h : Heap) (a : Nat) : List (String × String) :=
  h.cells.getD a []

/-- Overwrite the dict object at an address (models in-place mutation of a
dict the caller holds a reference to). -/
def Heap.write (h : Heap) (a : Nat) (m : List (String × String)) : Heap :=
  ⟨h.cells.set a m⟩

/-- Model of `_generate_environment_settings` at the heap level: evaluating the
function body allocates the five template dict literals afresh and returns
the address of the entry selected by `.get(world_type, ...)` — the returned
reference never points at an object that existed before the call. -/
def generate_environment_settings_alloc (h : Heap) (world_type : WorldType) :
    Heap × Nat :=
  let (h1, aFantasy) := h.alloc fantasy_settings
  let (h2, aSciFi) := h1.alloc sci_fi_settings
  let (h3, aRealistic) := h2.alloc realistic_settings
  let (h4, aUrban) := h3.alloc urban_settings
  let (h5, aNature) := h4.alloc nature_settings
  (h5, match world_type with
       | .fantasy => aFantasy
       | .sci_fi => aSciFi
       | .realistic => aRealistic
       | .urban => aUrban
       | .nature => aNature
       | _ => aRealistic)

/-! ### Helper lemmas -/

/-- A list's length equals its deduplicated length exactly when it has no
duplicates; this is the test `len(instance_ids) != len(set(instance_ids))`
of the validator. -/
theorem length_eq_dedup_length_iff {l : List Nat} :
    l.length = l.dedup.length ↔ l.Nodup := by
  constructor
  · intro h
    have hsub : l.dedup.Sublist l := l.dedup_sublist
    have hd : l.dedup = l := hsub.eq_of_length h.symm
    exact hd ▸ l.nodup_dedup
  · intro h
    rw [List.dedup_eq_self.mpr h]

/-- Pydantic validation returns the very record it was given when it
succeeds. -/
theorem validate_ok_eq {b b' : WorldBlueprint} :
    b.validate = .ok b' → b' = b := by
  intro h
  unfold WorldBlueprint.validate at h
  split_ifs at h
  split at h
  · exact absurd h (by simp)
  · simpa using h.symm

/-- Reading an appended block past the original list. -/
theorem getD_append_right_block {α : Type} (l l2 : List α) (k : Nat) (d : α) :
    (l ++ l2).getD (l.length + k) d = l2.getD k d := by
  induction l with
  | nil => simp
  | cons a t ih =>
    simpa [List.getD_cons_succ, Nat.succ_add] using ih

/-- Auxiliary bound: every canned description fragment has at most 66
characters. -/
theorem base_description_length_le (wt : WorldType) :
    ((base_descriptions.lookup wt).getD "A unique world to explore.").length
      ≤ 66 := by
  cases wt <;> decide

/-- String length distributes over append (character counts). -/
theorem string_length_append (a b : String) :
    (a ++ b).length = a.length + b.length := by
  cases a; cases b
  simp [String.length, String.append]

/-- The only error the instance validator can raise is the duplicate-id
message. -/
theorem validate_prefab_instances_error_msg {v : List PrefabInstance}
    {e : String} (h : validate_prefab_instances v = .error e) :
    e = "Prefab instances must have unique IDs" := by
  unfold validate_prefab_instances at h
  dsimp only at h
  split_ifs at h
  simp only [Except.error.injEq] at h
  exact h.symm

/-- Blueprint validation never raises the description-length error when the
description satisfies its length constraint. -/
theorem validate_ne_description_error {b : WorldBlueprint}
    (hok : description_length_ok b.description = true) :
    b.validate ≠ .error "description: length must be in [1, 2000]" := by
  intro h
  unfold WorldBlueprint.validate at h
  split_ifs at h with h1 h2
  · cases hv : validate_prefab_instances b.prefab_instances with
    | error e =>
      rw [hv] at h
      have he := validate_prefab_instances_error_msg hv
      subst he
      simp only [Except.error.injEq] at h
      exact absurd h (by decide)
    | ok w =>
      rw [hv] at h
      simp at h
  · simp only [Except.error.injEq] at h
    exact absurd h (by decide)
  · simp only [Except.error.injEq] at h
    exact absurd h (by decide)

/-! ### Claims -/

/-- C2: `classify` (embedded as `infer_world_type`) is a total function of
the prompt that coincides with the spec's ordered first-match rule cascade
(`classify_spec`); it is case-insensitive (it depends on the prompt only
through its lower-casing); and the precedence example "magic city"
classifies as fantasy, not urban. -/
theorem classifier_matches_ordered_rules :
    (∀ p : String, infer_world_type p = classify_spec p)
    ∧ (∀ p q : String, py_lower p = py_lower q →
        infer_world_type p = infer_world_type q)
    ∧ infer_world_type "magic city" = .fantasy := by
  refine ⟨fun p => rfl, fun p q h => ?_, by decide⟩
  simp only [infer_world_type]
  rw [h]

/-- Witness for C2: the case-insensitivity clause applied at a concrete
upper-cased prompt. -/
theorem classifier_matches_ordered_rules_witness :
    infer_world_type "MAGIC CITY" = infer_world_type "magic city" :=
  classifier_matches_ordered_rules.2.1 "MAGIC CITY" "magic city" (by decide)

/-- C3: the synthesized blueprint has exactly 2 prefab instances for
fantasy, 2 for sci-fi and 1 for every other category, and its spawn-point
list is exactly the category template: fantasy [(0,1,0),(10,1,5)], sci-fi
[(0,1,0),(5,1,0)], all others [(0,1,0),(5,1,5)]. -/
theorem blueprint_instance_count_and_spawn_points :
    ∀ (supply now : Nat) (prompt : String) (wt : WorldType),
      (raw_blueprint supply now prompt wt).prefab_instances.length
        = (if wt = .fantasy then 2 else if wt = .sci_fi then 2 else 1)
      ∧ (raw_blueprint supply now prompt wt).spawn_points
        = (if wt = .fantasy then [⟨0, 1, 0⟩, ⟨10, 1, 5⟩]
           else if wt = .sci_fi then [⟨0, 1, 0⟩, ⟨5, 1, 0⟩]
           else [⟨0, 1, 0⟩, ⟨5, 1, 5⟩]) := by
  intro supply now prompt wt
  cases wt <;>
    simp [raw_blueprint, generate_prefab_instances, generate_spawn_points]

/-- C9: keyword inference only ever produces one of the six categories
fantasy, sci-fi, urban, nature, historical, realistic — never surreal or
space — while category resolution returns any explicitly supplied category
verbatim, so surreal and space are reachable exactly through an explicit
category. -/
theorem inferred_category_range :
    (∀ p : String,
      infer_world_type p ∈
        [WorldType.fantasy, .sci_fi, .urban, .nature, .historical, .realistic])
    ∧ (∀ p : String,
        infer_world_type p ≠ .surreal ∧ infer_world_type p ≠ .space)
    ∧ (∀ (p : String) (wt : WorldType), resolve_world_type (some wt) p = wt) := by
  refine ⟨fun p => ?_, fun p => ?_, fun p wt => rfl⟩ <;>
    · unfold infer_world_type
      dsimp only
      split_ifs <;> simp

/-- C10: for any prompt of length 1..1000 and any category, the generated
description satisfies the description length constraint (1..2000 characters)
of `WorldBlueprint`, and consequently blueprint validation can never take
the description-length failure branch. -/
theorem description_validation_unreachable :
    ∀ (p : String) (wt : WorldType),
      1 ≤ p.length → p.length ≤ 1000 →
      description_length_ok (generate_description p wt) = true
      ∧ ∀ supply now : Nat,
          (raw_blueprint supply now p wt).validate
            ≠ .error "description: length must be in [1, 2000]" := by
  intro p wt h1 h2
  have hlen : (generate_description p wt).length
      = 20 + p.length
        + ((base_descriptions.lookup wt).getD "A unique world to explore.").length := by
    simp only [generate_description, string_length_append]
    have : ("Generated from: '" : String).length = 17 := by decide
    rw [this]
    have : ("'. " : String).length = 3 := by decide
    rw [this]
    omega
  have hfrag := base_description_length_le wt
  have hok : description_length_ok (generate_description p wt) = true := by
    simp only [description_length_ok, Bool.and_eq_true, decide_eq_true_eq]
    omega
  refine ⟨hok, fun supply now => ?_⟩
  have hdesc : (raw_blueprint supply now p wt).description
      = generate_description p wt := rfl
  exact validate_ne_description_error (by rw [hdesc]; exact hok)

/-- Witness for C10: the bound applied at the one-character prompt "a" in
the fantasy category. -/
theorem description_validation_unreachable_witness :
    description_length_ok (generate_description "a" .fantasy) = true
    ∧ ∀ supply now : Nat,
        (raw_blueprint supply now "a" .fantasy).validate
          ≠ .error "description: length must be in [1, 2000]" :=
  description_validation_unreachable "a" .fantasy (by decide) (by decide)

/-- C1: every blueprint built by the synthesizer has pairwise-distinct
prefab-instance identifiers; the uniqueness check exists as a validator
that raises the internal-defect error exactly when two instances share an
identifier, and on success returns the instance list unchanged (no
instance is ever silently dropped). -/
theorem instance_ids_unique_and_validator :
    (∀ (supply now : Nat) (prompt : String) (wt : WorldType),
      ((raw_blueprint supply now prompt wt).prefab_instances.map (·.id)).Nodup)
    ∧ ∀ v : List PrefabInstance,
        ((v.map (·.id)).Nodup → validate_prefab_instances v = .ok v)
        ∧ (¬ (v.map (·.id)).Nodup →
            validate_prefab_instances v
              = .error "Prefab instances must have unique IDs") := by
  constructor
  · intro supply now prompt wt
    cases wt <;> simp [raw_blueprint, generate_prefab_instances]
  · intro v
    constructor
    · intro hnd
      unfold validate_prefab_instances
      dsimp only
      rw [if_neg]
      simp only [ne_eq, not_not]
      exact length_eq_dedup_length_iff.mpr hnd
    · intro hnd
      unfold validate_prefab_instances
      dsimp only
      rw [if_pos]
      intro hlen
      exact hnd (length_eq_dedup_length_iff.mp hlen)

/-- Witness for C1: the validator accepts a two-instance list with distinct
ids unchanged and rejects the same list with a duplicated id. -/
theorem instance_ids_unique_and_validator_witness :
    validate_prefab_instances
        [⟨0, "fantasy_castle_01", .building, ⟨0, 0, 0⟩, ⟨0, 0, 0, 1⟩, ⟨1, 1, 1⟩, []⟩,
         ⟨1, "magic_tree_01", .environment, ⟨10, 0, 5⟩, ⟨0, 0, 0, 1⟩, ⟨1, 1, 1⟩, []⟩]
      = .ok
        [⟨0, "fantasy_castle_01", .building, ⟨0, 0, 0⟩, ⟨0, 0, 0, 1⟩, ⟨1, 1, 1⟩, []⟩,
         ⟨1, "magic_tree_01", .environment, ⟨10, 0, 5⟩, ⟨0, 0, 0, 1⟩, ⟨1, 1, 1⟩, []⟩]
    ∧ validate_prefab_instances
        [⟨0, "fantasy_castle_01", .building, ⟨0, 0, 0⟩, ⟨0, 0, 0, 1⟩, ⟨1, 1, 1⟩, []⟩,
         ⟨0, "magic_tree_01", .environment, ⟨10, 0, 5⟩, ⟨0, 0, 0, 1⟩, ⟨1, 1, 1⟩, []⟩]
      = .error "Prefab instances must have unique IDs" :=
  ⟨(instance_ids_unique_and_validator.2 _).1 (by decide),
   (instance_ids_unique_and_validator.2 _).2 (by decide)⟩

/-- Counterexample for C4: the claim says a whitespace-only prompt is
rejected as a ValidationFailure, but `PromptRequest` only constrains the
character count (`min_length=1`, no trimming), so the one-character
whitespace prompt " " is accepted. -/
theorem whitespace_prompt_accepted :
    validate_prompt_request " " none "test_user"
      = .ok ⟨" ", none, "test_user"⟩ := rfl

set_option maxRecDepth 8000 in
/-- C4 (amended): a prompt of exactly 1000 characters is accepted and 1001
characters rejected; the empty prompt is rejected; a whitespace-only prompt
of length at least 1 is accepted (no trimming is performed); an explicit
category that is not a recognized enumeration value is rejected. -/
theorem prompt_validation_boundaries :
    validate_prompt_request (String.mk (List.replicate 1000 'a')) none "u"
      = .ok ⟨String.mk (List.replicate 1000 'a'), none, "u"⟩
    ∧ validate_prompt_request (String.mk (List.replicate 1001 'a')) none "u"
      = .error "prompt: String should have at most 1000 characters"
    ∧ validate_prompt_request "" none "u"
      = .error "prompt: String should have at least 1 character"
    ∧ validate_prompt_request " " none "u" = .ok ⟨" ", none, "u"⟩
    ∧ validate_prompt_request "A magical forest" (some "galaxy") "u"
      = .error "world_type: Input should be a valid WorldType" :=
  ⟨rfl, rfl, rfl, rfl, rfl⟩

/-- Counterexample for C6: for the example prompt the generated title is
not "A Magical Forest With World" — the code takes the first five words
("A magical forest with ancient"), so the fifth word appears in the
title. -/
theorem example_title_counterexample :
    generate_title "A magical forest with ancient trees and glowing mushrooms"
        .fantasy
      ≠ "A Magical Forest With World" := by decide

/-- C6 (amended): for the prompt "A magical forest with ancient trees and
glowing mushrooms" with no explicit category, the category resolves to
fantasy, the title is "A Magical Forest With Ancient World" (first five
whitespace-separated words, title-cased, joined with spaces, plus the
literal suffix " World"), the instances are the castle archetype at
(0,0,0) and the tree archetype at (10,0,5), and the spawn points are
[(0,1,0), (10,1,5)]. -/
theorem end_to_end_fantasy_example :
    ∀ supply now : Nat,
      resolve_world_type none
          "A magical forest with ancient trees and glowing mushrooms"
        = .fantasy
      ∧ (raw_blueprint supply now
            "A magical forest with ancient trees and glowing mushrooms"
            .fantasy).title
        = "A Magical Forest With Ancient World"
      ∧ (raw_blueprint supply now
            "A magical forest with ancient trees and glowing mushrooms"
            .fantasy).prefab_instances.map (fun i => (i.prefab_id, i.position))
        = [("fantasy_castle_01", ⟨0, 0, 0⟩), ("magic_tree_01", ⟨10, 0, 5⟩)]
      ∧ (raw_blueprint supply now
            "A magical forest with ancient trees and glowing mushrooms"
            .fantasy).spawn_points
        = [⟨0, 1, 0⟩, ⟨10, 1, 5⟩] := by
  intro supply now
  refine ⟨by decide, ?_, ?_, ?_⟩
  · show generate_title
        "A magical forest with ancient trees and glowing mushrooms" .fantasy
      = "A Magical Forest With Ancient World"
    decide
  · simp [raw_blueprint, generate_prefab_instances]
  · show generate_spawn_points .fantasy = [⟨0, 1, 0⟩, ⟨10, 1, 5⟩]
    decide

/-- Counterexample for C5: the claim says `generate` has no side effect
beyond returning the blueprint and in particular does not persist it, but
`generate_world_from_prompt` adds a `WorldBlueprintModel` row to the
session and commits before returning: called on an empty store, it hands
back a store holding one row. -/
theorem generate_persists_counterexample :
    (generate_world_from_prompt [] 0 0 0 0 ⟨"hello world", none, "u"⟩).map
        (fun p => p.2.length)
      = .ok 1 := rfl

/-- C5 (amended): `generate` persists the blueprint itself — on success the
store it returns is the input store with exactly one new row appended, the
stored form of the generated blueprint; persistence is invoked by the
Generation Service inside `generate`, not left to the caller. -/
theorem generate_persists_blueprint :
    ∀ (db : List WorldBlueprintModel) (supply now start finish : Nat)
      (req : PromptRequest) (b : WorldBlueprint)
      (db' : List WorldBlueprintModel),
      generate_world_from_prompt db supply now start finish req
        = .ok (b, db') →
      db' = db ++ [to_world_model b] := by
  intro db supply now start finish req b db' h
  unfold generate_world_from_prompt at h
  dsimp only at h
  cases hc : create_world_blueprint supply now req.prompt
      (resolve_world_type req.world_type req.prompt) with
  | error e =>
    rw [hc] at h
    exact absurd h (by simp)
  | ok b0 =>
    rw [hc] at h
    simp only [Except.ok.injEq, Prod.mk.injEq] at h
    obtain ⟨hb, hdb⟩ := h
    subst hdb
    rw [← hb]
    rfl

/-- Witness for C5 (amended): the persistence equation applied to a
concrete call on the empty store. -/
theorem generate_persists_blueprint_witness :
    [to_world_model (raw_blueprint 0 0 "hello world" .realistic)]
      = [] ++ [to_world_model
          { raw_blueprint 0 0 "hello world" .realistic with
              processing_time_ms := some 0 }] :=
  generate_persists_blueprint [] 0 0 0 0 ⟨"hello world", none, "u"⟩
    { raw_blueprint 0 0 "hello world" .realistic with
        processing_time_ms := some 0 }
    [to_world_model (raw_blueprint 0 0 "hello world" .realistic)] rfl

/-- C7: two synthesizer runs with the same (prompt, category) but different
identifier supplies and timestamps agree on everything except the generated
identifiers and timestamps: the second blueprint is the first with only its
id, timestamps and instance list exchanged, and the two instance lists
agree on every field other than the generated instance id (same archetype
ids, types, positions, rotations, scales and properties). -/
theorem generate_deterministic_up_to_ids :
    ∀ (s1 n1 s2 n2 : Nat) (p : String) (wt : WorldType)
      (b1 b2 : WorldBlueprint),
      create_world_blueprint s1 n1 p wt = .ok b1 →
      create_world_blueprint s2 n2 p wt = .ok b2 →
      b2 = { b1 with id := b2.id, created_at := b2.created_at,
                     updated_at := b2.updated_at,
                     prefab_instances := b2.prefab_instances }
      ∧ b1.prefab_instances.map
          (fun i => (i.prefab_id, i.prefab_type, i.position, i.rotation,
                     i.scale, i.properties))
        = b2.prefab_instances.map
            (fun i => (i.prefab_id, i.prefab_type, i.position, i.rotation,
                       i.scale, i.properties)) := by
  intro s1 n1 s2 n2 p wt b1 b2 h1 h2
  have e1 : b1 = raw_blueprint s1 n1 p wt := validate_ok_eq h1
  have e2 : b2 = raw_blueprint s2 n2 p wt := validate_ok_eq h2
  subst e1
  subst e2
  exact ⟨rfl, by cases wt <;> rfl⟩

/-- Witness for C7: two concrete fantasy runs with different supplies and
timestamps produce instance lists that agree on everything but ids. -/
theorem generate_deterministic_up_to_ids_witness :
    (raw_blueprint 0 0 "a" .fantasy).prefab_instances.map
        (fun i => (i.prefab_id, i.prefab_type, i.position, i.rotation,
                   i.scale, i.properties))
      = (raw_blueprint 5 7 "a" .fantasy).prefab_instances.map
          (fun i => (i.prefab_id, i.prefab_type, i.position, i.rotation,
                     i.scale, i.properties)) :=
  (generate_deterministic_up_to_ids 0 0 5 7 "a" .fantasy
    (raw_blueprint 0 0 "a" .fantasy) (raw_blueprint 5 7 "a" .fantasy)
    rfl rfl).2

/-- The position of each category's entry in the block of five template
dicts allocated by one call of the heap-level
`generate_environment_settings_alloc`. -/
def env_template_index : WorldType → Nat
  | .fantasy => 0
  | .sci_fi => 1
  | .realistic => 2
  | .urban => 3
  | .nature => 4
  | _ => 2

/-- Helper for C8: one heap-level call appends exactly the five freshly
allocated template dicts to the heap and returns the address of the entry
selected for the category — an address inside the freshly allocated
block. -/
theorem gen_env_alloc_spec (h : Heap) (wt : WorldType) :
    (generate_environment_settings_alloc h wt).1.cells
      = h.cells ++ [fantasy_settings, sci_fi_settings, realistic_settings,
                    urban_settings, nature_settings]
    ∧ (generate_environment_settings_alloc h wt).2
      = h.cells.length + env_template_index wt := by
  cases wt <;>
    simp [generate_environment_settings_alloc, Heap.alloc, env_template_index]

/-- C8: the environment-settings dict a call returns never aliases storage
shared with a later call — writing an arbitrary map through the reference
returned by one call leaves the dict observed by any subsequent call equal
to the category's canonical template (`generate_environment_settings`),
whatever was written and whatever the earlier heap contained. -/
theorem env_settings_no_alias_across_calls :
    ∀ (h : Heap) (wt1 wt2 : WorldType) (m : List (String × String)),
      ((generate_environment_settings_alloc
          ((generate_environment_settings_alloc h wt1).1.write
            (generate_environment_settings_alloc h wt1).2 m) wt2).1).read
        ((generate_environment_settings_alloc
          ((generate_environment_settings_alloc h wt1).1.write
            (generate_environment_settings_alloc h wt1).2 m) wt2).2)
      = generate_environment_settings wt2 := by
  intro h wt1 wt2 m
  obtain ⟨hc, ha⟩ := gen_env_alloc_spec
    ((generate_environment_settings_alloc h wt1).1.write
      (generate_environment_settings_alloc h wt1).2 m) wt2
  simp only [Heap.read, hc, ha, getD_append_right_block]
  cases wt2 <;> rfl

end ImmersiVerse
